import Mathlib

/-!
# Verification of the Sawtooth PoET enclave wait-timer / wait-certificate protocol

Shallow embedding of the PoET consensus core of `hyperledger/sawtooth-core`:

* `consensus/poet/sgx/sawtooth_poet_sgx/libpoet_enclave/poet_enclave.cpp`
  (the SGX enclave: `ecall_CreateWaitTimer`, `ecall_CreateWaitCertificate`,
  `ecall_VerifyWaitCertificate`, `GenerateWaitTimerDuration`),
* `consensus/poet/sgx/sawtooth_poet_sgx/libpoet_bridge/poet.cpp` and
  `enclave.cpp` (the untrusted bridge: `Poet_CreateWaitTimer`,
  `Enclave::CallSgx`),
* `consensus/poet/sgx/sawtooth_poet_sgx/poet_enclave_sgx/common.cpp` and
  `wait_certificate.cpp` (`CreateIdentifier`, `WaitCertificate::identifier`),
* `journal/consensus/poet/poet_enclave_simulator/wait_timer.cpp` and
  `wait_certificate.cpp` (the software simulator backend).

Modelling conventions:

* IEEE doubles carrying times, durations and difficulty are modelled as
  exact rationals `ℚ` (the claims under study concern branch logic, floor
  and ceiling arithmetic and signs, not rounding); the one genuinely
  transcendental computation (`log` in `GenerateWaitTimerDuration`) is
  modelled over `ℝ`.
* The SGX monotonic counter bound to one signup identity is the single
  mutable enclave state (`EnclaveState.counter`);
  `sgx_increment_monotonic_counter` increments and returns the new value.
* ECDSA is modelled symbolically (Dolev-Yao style): a signature is the
  pair of the signing key and the exact message; verification checks that
  the signature's key corresponds to the given public key and that the
  message matches byte for byte.
* The JSON serialization of parson / json-c is modelled by a deterministic
  key-ordered rendering; rationals are rendered as `num/den`, which keeps
  the encoding injective (which is all the signature model consumes).
* Buffer-capacity bookkeeping of the C interface is modelled only where a
  claim depends on it (the bridge-side size checks of
  `Poet_CreateWaitTimer`); out-parameter plumbing is elided.
-/

/-! ## Protocol constants (poet_enclave.cpp, poet.cpp, poet_enclave.h) -/

/-- `NULL_IDENTIFIER` of poet_enclave.cpp line 61 (identical in the
simulator's poet_enclave.h): the distinguished genesis identifier. -/
def NULL_IDENTIFIER : String := "0000000000000000"

/-- `TIMER_TIMEOUT_PERIOD = 30.0` of poet_enclave.cpp line 67. -/
def TIMER_TIMEOUT_PERIOD : ℚ := 30

/-- `MINIMUM_WAIT_TIME = 1.0` of poet_enclave.cpp line 69 (identical in the
simulator's poet_enclave.h). -/
def MINIMUM_WAIT_TIME : ℚ := 1

/-- `CERTIFICATE_ID_LENGTH` of libpoet_bridge/poet.cpp line 36. -/
def CERTIFICATE_ID_LENGTH : ℕ := 16

/-- `MAX_ADDRESS_LENGTH` of libpoet_bridge/poet.cpp line 37. -/
def MAX_ADDRESS_LENGTH : ℕ := 66

/-- `MIN_ADDRESS_LENGTH` of libpoet_bridge/poet.cpp line 38. -/
def MIN_ADDRESS_LENGTH : ℕ := 26

/-- `Poet_GetWaitTimerSize` of libpoet_bridge/poet.cpp: `2*1024`. -/
def Poet_GetWaitTimerSize : ℕ := 2 * 1024

/-- `Poet_GetSignatureSize` of libpoet_bridge/poet.cpp:
`BASE64_SIZE(64) = (((64 - 1) / 3) * 4 + 4) + 1`. -/
def Poet_GetSignatureSize : ℕ := ((64 - 1) / 3) * 4 + 4 + 1

/-! ## Error taxonomy (libpoet_shared/error.h)

Only the distinctions exercised by the claims are modelled; every
`sp::ValueError` carries its exact message string. -/

/-- Typed errors thrown inside the enclave and bridge layers. -/
inductive PoetError where
  | valueError (msg : String)
  | runtimeError (msg : String)
deriving DecidableEq, Repr

/-- Message of poet_enclave.cpp line 840. -/
def timerSigInvalidMsg : String := "Wait timer signature is invalid"

/-- Message of poet_enclave.cpp lines 858-861 (two spaces after the period,
as concatenated in the source). -/
def outOfSequenceMsg : String := "WaitTimer out of sequence.  (Attempted replay attack?)"

/-- Message of poet_enclave.cpp line 888. -/
def notExpiredMsg : String := "Wait timer has not expired"

/-- Message of poet_enclave.cpp line 910. -/
def timedOutMsg : String := "Wait timer has timed out"

/-- Message of poet_enclave.cpp line 1082. -/
def certSigInvalidMsg : String := "Wait certificate signature is invalid"

/-- Message of libpoet_bridge/poet.cpp line 637. -/
def invalidAddressMsg : String := "Invalid Validator Address"

/-- Message of libpoet_bridge/poet.cpp line 641. -/
def timerBufferMsg : String := "WaitTimer buffer to small (outSerializedWaitTimer)"

/-- Message of libpoet_bridge/poet.cpp line 645. -/
def sigBufferMsg : String := "Signature buffer to small (outWaitTimerSignature)"

/-- Message of libpoet_bridge/poet.cpp line 649. -/
def invalidLocalMeanMsg : String := "Invalid local mean time"

/-- Message of libpoet_bridge/poet.cpp line 653. -/
def invalidPrevCertIdMsg : String := "Invalid Previous CertificateId"

/-! ## Symbolic ECDSA (sgx_ecdsa_sign / sgx_ecdsa_verify) -/

/-- Derives the public half of a keypair from the private half; keypairs
are identified by their generation seed, so this is the identity on
seeds.  (`sgx_ecc256_create_key_pair` returns both halves at once.) -/
def sgxDerivePublicKey (privateKey : ℕ) : ℕ := privateKey

/-- A symbolic ECDSA signature: the signing (private) key together with
the exact signed message.  `μ` is the message type (`String` for the
serialized JSON the enclave signs). -/
structure SgxSignature (μ : Type) where
  key : ℕ
  msg : μ
deriving DecidableEq

/-- `sgx_ecdsa_sign`: signing records the key and the message. -/
def sgxEcdsaSign {μ : Type} (privateKey : ℕ) (message : μ) : SgxSignature μ :=
  { key := privateKey, msg := message }

/-- `sgx_ecdsa_verify`: the check result is `SGX_EC_VALID` exactly when the
signature was produced with the private half of `publicKey` over exactly
`message`. -/
def sgxEcdsaVerify {μ : Type} [DecidableEq μ] (message : μ) (publicKey : ℕ)
    (signature : SgxSignature μ) : Bool :=
  decide (sgxDerivePublicKey signature.key = publicKey ∧ signature.msg = message)

/-! ## Identity and enclave state -/

/-- `ValidatorSignupData` of poet_enclave.cpp lines 55-59, as far as the
wait-timer/wait-certificate protocol reads it: the PoET keypair.  The
monotonic counter it references is held in `EnclaveState`. -/
structure ValidatorSignupData where
  privateKey : ℕ
  publicKey : ℕ
deriving DecidableEq, Repr

/-- The mutable state protected by the SGX platform: the value of the
monotonic counter bound to the signup identity. -/
structure EnclaveState where
  counter : ℕ
deriving DecidableEq, Repr

/-! ## WaitTimer and its serialization (ecall_CreateWaitTimer) -/

/-- The fields `ecall_CreateWaitTimer` serializes, in the strict
alphabetical key order of poet_enclave.cpp lines 672-720:
`Duration, LocalMean, PreviousCertID, RequestTime, SequenceId,
SgxRequestTime, ValidatorAddress`.  `α` is the scalar type standing in
for the C doubles (`ℚ` for the branch-logic model, `ℝ` for the duration
formula). -/
structure WaitTimer (α : Type) where
  Duration : α
  LocalMean : α
  PreviousCertificateId : String
  RequestTime : α
  SequenceId : ℕ
  SgxRequestTime : α
  ValidatorAddress : String
deriving DecidableEq

/-- Deterministic rendering of a rational (stands in for parson's decimal
rendering of a double; the embedding only needs it to be deterministic
and injective, since signatures bind the rendered bytes). -/
def ratStr (q : ℚ) : String :=
  toString q.num ++ ("/") ++ toString q.den

/-- The serialized JSON of a wait timer, keys in alphabetical order as in
poet_enclave.cpp lines 670-721. -/
def serializeWaitTimer (t : WaitTimer ℚ) : String :=
  "\x7b\"Duration\":" ++ ratStr t.Duration ++
  ",\"LocalMean\":" ++ ratStr t.LocalMean ++
  ",\"PreviousCertID\":\"" ++ t.PreviousCertificateId ++
  "\",\"RequestTime\":" ++ ratStr t.RequestTime ++
  ",\"SequenceId\":" ++ toString t.SequenceId ++
  ",\"SgxRequestTime\":" ++ ratStr t.SgxRequestTime ++
  ",\"ValidatorAddress\":\"" ++ t.ValidatorAddress ++ "\"\x7d"

/-- `ecall_CreateWaitTimer` (poet_enclave.cpp lines 596-768).  After
unsealing, the enclave samples `duration` (via `GenerateWaitTimerDuration`;
the sampled value is a parameter here, see `GenerateWaitTimerDuration`
below for the formula), reads the trusted time (`sgxNow`), advances the
monotonic counter and records the *new* value as `SequenceId`, serializes
the timer and signs the serialization with the PoET private key.  Note
that the enclave performs no validation of `inLocalMean`,
`inValidatorAddress` or `inPreviousCertificateId`: those checks live in
the untrusted bridge (`Poet_CreateWaitTimer`).  Success-path
buffer-capacity bookkeeping is elided. -/
def ecall_CreateWaitTimer (s : EnclaveState) (signup : ValidatorSignupData)
    (inValidatorAddress inPreviousCertificateId : String)
    (inRequestTime inLocalMean sgxNow duration : ℚ) :
    WaitTimer ℚ × SgxSignature String × EnclaveState :=
  let timer : WaitTimer ℚ :=
    { Duration := duration
      LocalMean := inLocalMean
      PreviousCertificateId := inPreviousCertificateId
      RequestTime := inRequestTime
      SequenceId := s.counter + 1
      SgxRequestTime := sgxNow
      ValidatorAddress := inValidatorAddress }
  (timer, sgxEcdsaSign signup.privateKey (serializeWaitTimer timer),
    { counter := s.counter + 1 })

/-! ## WaitCertificate and its serialization (ecall_CreateWaitCertificate) -/

/-- The fields `ecall_CreateWaitCertificate` serializes, in the strict
alphabetical key order of poet_enclave.cpp lines 935-992: `BlockHash,
Duration, LocalMean, Nonce, PreviousCertID, RequestTime,
ValidatorAddress`. -/
structure WaitCertificate where
  BlockHash : String
  Duration : ℚ
  LocalMean : ℚ
  Nonce : String
  PreviousCertID : String
  RequestTime : ℚ
  ValidatorAddress : String
deriving DecidableEq, Repr

/-- The serialized JSON of a wait certificate. -/
def serializeWaitCertificate (c : WaitCertificate) : String :=
  "\x7b\"BlockHash\":\"" ++ c.BlockHash ++
  "\",\"Duration\":" ++ ratStr c.Duration ++
  ",\"LocalMean\":" ++ ratStr c.LocalMean ++
  ",\"Nonce\":\"" ++ c.Nonce ++
  "\",\"PreviousCertID\":\"" ++ c.PreviousCertID ++
  "\",\"RequestTime\":" ++ ratStr c.RequestTime ++
  ",\"ValidatorAddress\":\"" ++ c.ValidatorAddress ++ "\"\x7d"

/-- `ecall_CreateWaitCertificate` (poet_enclave.cpp lines 771-1043), in
source order after unsealing and parsing:

1. verify the timer signature against the identity's own public key
   (`ValueError` "Wait timer signature is invalid" otherwise);
2. read the monotonic counter and require it to equal the timer's
   `SequenceId` (`ValueError` "WaitTimer out of sequence. ..." otherwise);
3. `currentTime = ceil(GetCurrentTime())` (trusted time, an integral
   second count `now`), `expireTime = floor(SgxRequestTime + Duration)`;
   reject "Wait timer has not expired" if `expireTime > currentTime` and
   the previous certificate id is not the null identifier;
4. `timeOutTime = ceil(SgxRequestTime + Duration + TIMER_TIMEOUT_PERIOD)`;
   reject "Wait timer has timed out" if `timeOutTime < currentTime` and
   the previous certificate id is not the null identifier;
5. serialize the certificate (fresh `nonceHexString` from `sgx_read_rand`
   is a parameter), sign it with the PoET private key, and increment the
   monotonic counter as the final step.

The result carries the certificate, its serialization, the signature and
the post-call enclave state. -/
def ecall_CreateWaitCertificate (s : EnclaveState) (signup : ValidatorSignupData)
    (waitTimer : WaitTimer ℚ) (inWaitTimerSignature : SgxSignature String)
    (inBlockHash nonceHexString : String) (now : ℕ) :
    Except PoetError (WaitCertificate × String × SgxSignature String × EnclaveState) :=
  if sgxEcdsaVerify (serializeWaitTimer waitTimer) signup.publicKey
      inWaitTimerSignature = false then
    Except.error (PoetError.valueError timerSigInvalidMsg)
  else if s.counter ≠ waitTimer.SequenceId then
    Except.error (PoetError.valueError outOfSequenceMsg)
  else if ((⌊waitTimer.SgxRequestTime + waitTimer.Duration⌋ : ℤ) : ℚ) >
        ((⌈((now : ℚ))⌉ : ℤ) : ℚ) ∧
      waitTimer.PreviousCertificateId ≠ NULL_IDENTIFIER then
    Except.error (PoetError.valueError notExpiredMsg)
  else if ((⌈waitTimer.SgxRequestTime + waitTimer.Duration + TIMER_TIMEOUT_PERIOD⌉ : ℤ) : ℚ) <
        ((⌈((now : ℚ))⌉ : ℤ) : ℚ) ∧
      waitTimer.PreviousCertificateId ≠ NULL_IDENTIFIER then
    Except.error (PoetError.valueError timedOutMsg)
  else
    let cert : WaitCertificate :=
      { BlockHash := inBlockHash
        Duration := waitTimer.Duration
        LocalMean := waitTimer.LocalMean
        Nonce := nonceHexString
        PreviousCertID := waitTimer.PreviousCertificateId
        RequestTime := waitTimer.RequestTime
        ValidatorAddress := waitTimer.ValidatorAddress }
    Except.ok (cert, serializeWaitCertificate cert,
      sgxEcdsaSign signup.privateKey (serializeWaitCertificate cert),
      { counter := s.counter + 1 })

/-- `ecall_VerifyWaitCertificate` (poet_enclave.cpp lines 1046-1099): only
the signature of the serialized certificate is checked against the given
public key; the ecall takes no sealed identity, reads no counter and no
trusted time. -/
def ecall_VerifyWaitCertificate (inSerializedWaitCertificate : String)
    (inWaitCertificateSignature : SgxSignature String) (inPoetPublicKey : ℕ) :
    Except PoetError Unit :=
  if sgxEcdsaVerify inSerializedWaitCertificate inPoetPublicKey
      inWaitCertificateSignature = false then
    Except.error (PoetError.valueError certSigInvalidMsg)
  else
    Except.ok ()

/-- `ecall_VerifyWaitCertificate` lifted to the stateful boundary
signature all ecalls share: since the ecall's parameter list contains no
sealed identity and its body touches neither the monotonic counter nor
the trusted time source, the enclave state passes through unchanged and
the result ignores it. -/
def enclaveVerifyWaitCertificateOp (s : EnclaveState) (now : ℕ)
    (inSerializedWaitCertificate : String)
    (inWaitCertificateSignature : SgxSignature String) (inPoetPublicKey : ℕ) :
    Except PoetError Unit × EnclaveState :=
  (ecall_VerifyWaitCertificate inSerializedWaitCertificate
    inWaitCertificateSignature inPoetPublicKey, s)

/-- `Except.isOk` specialized to this development (avoids relying on a
library helper). -/
def exceptIsOk {ε α : Type} : Except ε α → Bool
  | Except.ok _ => true
  | Except.error _ => false

/-! ## Enclave step relation (for the anti-replay argument) -/

/-- One boundary call against the enclave identity: a wait-timer creation
(always advances the counter), a wait-certificate creation (advances the
counter exactly when it succeeds), or a verification (stateless). -/
inductive EnclaveStep : EnclaveState → EnclaveState → Prop where
  | createWaitTimer (s : EnclaveState) (signup : ValidatorSignupData)
      (addr prev : String) (reqTime localMean sgxNow duration : ℚ) :
      EnclaveStep s
        (ecall_CreateWaitTimer s signup addr prev reqTime localMean sgxNow duration).2.2
  | createWaitCertificateOk (s : EnclaveState) (signup : ValidatorSignupData)
      (timer : WaitTimer ℚ) (tsig : SgxSignature String) (bh nonce : String) (now : ℕ)
      (out : WaitCertificate × String × SgxSignature String × EnclaveState)
      (h : ecall_CreateWaitCertificate s signup timer tsig bh nonce now = Except.ok out) :
      EnclaveStep s out.2.2.2
  | createWaitCertificateErr (s : EnclaveState) (signup : ValidatorSignupData)
      (timer : WaitTimer ℚ) (tsig : SgxSignature String) (bh nonce : String) (now : ℕ)
      (e : PoetError)
      (h : ecall_CreateWaitCertificate s signup timer tsig bh nonce now = Except.error e) :
      EnclaveStep s s
  | verifyWaitCertificate (s : EnclaveState) (now : ℕ) (c : String)
      (sig : SgxSignature String) (pk : ℕ) :
      EnclaveStep s (enclaveVerifyWaitCertificateOp s now c sig pk).2

/-- Reflexive-transitive closure of `EnclaveStep`: the states the enclave
identity can reach by further boundary calls. -/
def EnclaveReachable : EnclaveState → EnclaveState → Prop :=
  Relation.ReflTransGen EnclaveStep

/-! ## Duration derivation (GenerateWaitTimerDuration, ComputeDuration)

The keyed derivation of poet_enclave.cpp lines 1190-1236 MACs
`validatorAddress || previousCertificateId` with the enclave's sealing
key, reinterprets the first 8 bytes of the tag as a `uint64`, and divides
by `ULLONG_MAX`, yielding `hashAsDouble ∈ [0,1]`; the duration is then
`MINIMUM_WAIT_TIME - localMean * log(hashAsDouble)`.  The CMAC itself is
an SGX platform primitive; its normalized output is the parameter
`hashAsDouble` here. -/

/-- The duration formula of `GenerateWaitTimerDuration`
(poet_enclave.cpp line 1235). -/
noncomputable def GenerateWaitTimerDuration (hashAsDouble localMean : ℝ) : ℝ :=
  ((MINIMUM_WAIT_TIME : ℚ) : ℝ) - localMean * Real.log hashAsDouble

/-- `ComputeDuration` of the simulator backend
(journal/consensus/poet/poet_enclave_simulator/wait_timer.cpp lines
38-55): `MINIMUM_WAIT_TIME` plus a draw from
`exponential_distribution(1.0 / mean)`; the drawn value `wait` (always
non-negative for this distribution) is the parameter here. -/
def ComputeDuration (wait : ℚ) : ℚ :=
  MINIMUM_WAIT_TIME + wait

/-- `ecall_CreateWaitTimer` over exact reals, for reasoning about the
composed duration formula: identical control flow to
`ecall_CreateWaitTimer` (there is in particular no validation of
`inLocalMean`), with `duration` computed inside from the keyed value
`hashAsDouble` as in the source, and the signature binding the timer
value itself (serialization of real-valued fields is abstracted). -/
noncomputable def ecall_CreateWaitTimerReal (s : EnclaveState)
    (signup : ValidatorSignupData)
    (inValidatorAddress inPreviousCertificateId : String)
    (inRequestTime inLocalMean sgxNow hashAsDouble : ℝ) :
    WaitTimer ℝ × SgxSignature (WaitTimer ℝ) × EnclaveState :=
  let timer : WaitTimer ℝ :=
    { Duration := GenerateWaitTimerDuration hashAsDouble inLocalMean
      LocalMean := inLocalMean
      PreviousCertificateId := inPreviousCertificateId
      RequestTime := inRequestTime
      SequenceId := s.counter + 1
      SgxRequestTime := sgxNow
      ValidatorAddress := inValidatorAddress }
  (timer, sgxEcdsaSign signup.privateKey timer, { counter := s.counter + 1 })

/-! ## Untrusted bridge: Poet_CreateWaitTimer (libpoet_bridge/poet.cpp) -/

/-- `Poet_CreateWaitTimer` (libpoet_bridge/poet.cpp lines 612-691).
Parameter validation in source order (all raise `ValueError`):
validator-address length outside `[MIN_ADDRESS_LENGTH,
MAX_ADDRESS_LENGTH]`; serialized-timer buffer smaller than
`Poet_GetWaitTimerSize`; signature buffer smaller than
`Poet_GetSignatureSize`; `inLocalMean ≤ 0`; previous-certificate-id
length different from `CERTIFICATE_ID_LENGTH`.  Only when every check
passes does the bridge invoke the enclave (`g_Enclave.CreateWaitTimer`),
which advances the enclave state; a validation failure returns before any
enclave call, with the enclave state unchanged.  (`ThrowIfNull` checks
are vacuous here since the embedding's strings are total values.) -/
def Poet_CreateWaitTimer (es : EnclaveState) (signup : ValidatorSignupData)
    (inValidatorAddress inPreviousCertificateId : String)
    (inRequestTime inLocalMean : ℚ)
    (inSerializedTimerLength inWaitTimerSignatureLength : ℕ)
    (sgxNow duration : ℚ) :
    Except PoetError (WaitTimer ℚ × SgxSignature String) × EnclaveState :=
  if inValidatorAddress.length > MAX_ADDRESS_LENGTH ∨
      inValidatorAddress.length < MIN_ADDRESS_LENGTH then
    (Except.error (PoetError.valueError invalidAddressMsg), es)
  else if inSerializedTimerLength < Poet_GetWaitTimerSize then
    (Except.error (PoetError.valueError timerBufferMsg), es)
  else if inWaitTimerSignatureLength < Poet_GetSignatureSize then
    (Except.error (PoetError.valueError sigBufferMsg), es)
  else if inLocalMean ≤ 0 then
    (Except.error (PoetError.valueError invalidLocalMeanMsg), es)
  else if inPreviousCertificateId.length ≠ CERTIFICATE_ID_LENGTH then
    (Except.error (PoetError.valueError invalidPrevCertIdMsg), es)
  else
    let r := ecall_CreateWaitTimer es signup inValidatorAddress
      inPreviousCertificateId inRequestTime inLocalMean sgxNow duration
    (Except.ok (r.1, r.2.1), r.2.2)

/-! ## Bridge retry loop: Enclave::CallSgx (libpoet_bridge/enclave.cpp) -/

/-- The `sgx_status_t` values `Enclave::CallSgx` dispatches on. -/
inductive SgxStatus where
  | SGX_SUCCESS
  | SGX_ERROR_DEVICE_BUSY
  | SGX_ERROR_ENCLAVE_LOST
  | SGX_OTHER_ERROR (code : ℕ)
deriving DecidableEq, Repr

/-- Observable behaviour of one `Enclave::CallSgx` execution: the status
it surfaces (`none` while the loop has consumed every provided result and
is still iterating), how many times it invoked `fxn`, how many times it
reloaded the enclave (`Unload`; `LoadEnclave`), and how many times it
slept `retryDelayMs`. -/
structure CallSgxTrace where
  result : Option SgxStatus
  invocations : ℕ
  reloads : ℕ
  sleeps : ℕ
deriving DecidableEq, Repr

/-- Default `retries` argument of `Enclave::CallSgx`
(libpoet_bridge/enclave.h line 131). -/
def CALLSGX_DEFAULT_RETRIES : ℕ := 5

/-- Default `retryDelayMs` argument of `Enclave::CallSgx`
(libpoet_bridge/enclave.h line 132). -/
def CALLSGX_DEFAULT_RETRY_DELAY_MS : ℕ := 100

/-- The do-while loop of `Enclave::CallSgx` (libpoet_bridge/enclave.cpp
lines 797-826), run against the list of statuses the successive `fxn()`
invocations return (the wrapped call is stateful, so each invocation may
yield a different status).  On `SGX_ERROR_ENCLAVE_LOST` the enclave is
unloaded and reloaded and the loop continues with `count` unchanged; on
`SGX_ERROR_DEVICE_BUSY` the loop sleeps, increments `count`, and
continues only while `count <= retries`; any other status exits the loop
and is surfaced. -/
def callSgxLoop (retries : ℕ) : List SgxStatus → ℕ → CallSgxTrace
  | [], _ => { result := none, invocations := 0, reloads := 0, sleeps := 0 }
  | r :: rest, count =>
    match r with
    | SgxStatus.SGX_ERROR_ENCLAVE_LOST =>
      let t := callSgxLoop retries rest count
      { result := t.result, invocations := t.invocations + 1,
        reloads := t.reloads + 1, sleeps := t.sleeps }
    | SgxStatus.SGX_ERROR_DEVICE_BUSY =>
      if count + 1 ≤ retries then
        let t := callSgxLoop retries rest (count + 1)
        { result := t.result, invocations := t.invocations + 1,
          reloads := t.reloads, sleeps := t.sleeps + 1 }
      else
        { result := some SgxStatus.SGX_ERROR_DEVICE_BUSY, invocations := 1,
          reloads := 0, sleeps := 1 }
    | s =>
      { result := some s, invocations := 1, reloads := 0, sleeps := 0 }

/-- `Enclave::CallSgx` with the local `count` starting at 0. -/
def Enclave.CallSgx (results : List SgxStatus) (retries : ℕ) : CallSgxTrace :=
  callSgxLoop retries results 0

/-- Number of `SGX_ERROR_ENCLAVE_LOST` results in a status list (used to
state when the retry loop is guaranteed to exit). -/
def lostCount : List SgxStatus → ℕ
  | [] => 0
  | SgxStatus.SGX_ERROR_ENCLAVE_LOST :: rest => lostCount rest + 1
  | _ :: rest => lostCount rest

/-! ## Simulator backend
(journal/consensus/poet/poet_enclave_simulator) -/

/-- The simulator's `WaitTimer` class fields as read by
wait_timer.cpp / wait_certificate.cpp.  The key material is the global
`WaitTimerPrivateKey` generated at module initialization. -/
structure SimWaitTimer where
  duration : ℚ
  local_mean : ℚ
  minimum_wait_time : ℚ
  previous_certificate_id : String
  request_time : ℚ
  signature : SgxSignature String
deriving DecidableEq

/-- The simulator's `WaitCertificate` class fields as written by
`WaitCertificate::WaitCertificate(WaitTimer*)` and `serialize`. -/
structure SimWaitCertificate where
  duration : ℚ
  local_mean : ℚ
  minimum_wait_time : ℚ
  previous_certificate_id : String
  request_time : ℚ
  signature : SgxSignature String
deriving DecidableEq

/-- Seed of the module-global `WaitTimerPrivateKey` /
`WaitTimerPublicKey` pair of the simulator. -/
def WaitTimerPrivateKey : ℕ := 0

/-- Public half of the simulator's wait-timer keypair. -/
def WaitTimerPublicKey : ℕ := sgxDerivePublicKey WaitTimerPrivateKey

/-- Seed of the module-global `GlobalPrivateKey` / `GlobalPublicKey` pair
of the simulator. -/
def GlobalPrivateKey : ℕ := 1

/-- Public half of the simulator's global keypair. -/
def GlobalPublicKey : ℕ := sgxDerivePublicKey GlobalPrivateKey

/-- `WaitTimer::serialize` of the simulator (wait_timer.cpp lines
112-125): keys `Duration, LocalMean, PreviousCertID, RequestTime` in
alphabetical order. -/
def simSerializeWaitTimer (t : SimWaitTimer) : String :=
  "\x7b\"Duration\":" ++ ratStr t.duration ++
  ",\"LocalMean\":" ++ ratStr t.local_mean ++
  ",\"PreviousCertID\":\"" ++ t.previous_certificate_id ++
  "\",\"RequestTime\":" ++ ratStr t.request_time ++ "\x7d"

/-- `WaitCertificate::serialize` of the simulator (wait_certificate.cpp
lines 84-97): keys `Duration, LocalMean, MinimumWaitTime, PreviousCertID,
RequestTime`. -/
def simSerializeWaitCertificate (c : SimWaitCertificate) : String :=
  "\x7b\"Duration\":" ++ ratStr c.duration ++
  ",\"LocalMean\":" ++ ratStr c.local_mean ++
  ",\"MinimumWaitTime\":" ++ ratStr c.minimum_wait_time ++
  ",\"PreviousCertID\":\"" ++ c.previous_certificate_id ++
  "\",\"RequestTime\":" ++ ratStr c.request_time ++ "\x7d"

/-- `WaitTimer::is_expired` (wait_timer.cpp lines 81-84):
`(request_time + duration) < CurrentTime()`; the wall clock is the
parameter `now`. -/
def SimWaitTimer.is_expired (t : SimWaitTimer) (now : ℚ) : Bool :=
  decide (t.request_time + t.duration < now)

/-- `WaitCertificate::WaitCertificate(WaitTimer*)` (wait_certificate.cpp
lines 39-47): copies the timer's fields; the signature field starts out
as the empty string (a placeholder value here — `simSerializeWaitCertificate`
does not read it, exactly as the C++ `serialize` omits `signature`). -/
def simCertOfTimer (t : SimWaitTimer) : SimWaitCertificate :=
  { duration := t.duration
    local_mean := t.local_mean
    minimum_wait_time := t.minimum_wait_time
    previous_certificate_id := t.previous_certificate_id
    request_time := t.request_time
    signature := sgxEcdsaSign 0 ("") }

/-- `create_wait_certificate` of the simulator backend
(journal/consensus/poet/poet_enclave_simulator/wait_certificate.cpp lines
99-116).  Returns `NULL` — modelled as `none` — when the timer's
signature does not verify against `WaitTimerPublicKey`, and again when
the previous certificate id is not the null identifier and the timer has
not expired; otherwise builds the certificate from the timer and signs
its serialization with `GlobalPrivateKey`. -/
def create_wait_certificate (timer : SimWaitTimer) (now : ℚ) :
    Option SimWaitCertificate :=
  if sgxEcdsaVerify (simSerializeWaitTimer timer) WaitTimerPublicKey
      timer.signature = false then
    none
  else if timer.previous_certificate_id ≠ NULL_IDENTIFIER ∧
      timer.is_expired now = false then
    none
  else
    let cert := simCertOfTimer timer
    some { cert with
      signature := sgxEcdsaSign GlobalPrivateKey (simSerializeWaitCertificate cert) }

/-! ## SHA-256 and Base32 (the CryptoPP calls of poet_enclave_sgx/common.cpp)

`CreateIdentifier` computes `CryptoPP::SHA256` of the signature string,
feeds the 32-byte digest through `CryptoPP::Base32Encoder(NULL, false)`
(lowercase variant of crypto++'s default base-32 alphabet
`abcdefghijkmnpqrstuvwxyz23456789`, big-endian 5-bit groups, final group
zero-padded), and keeps the first 16 characters.  The two library
algorithms are implemented here concretely (FIPS 180-4 SHA-256 over byte
lists; bit-level base-32). -/

/-- Truncation to a 32-bit word. -/
def w32 (x : ℕ) : ℕ := x % 2 ^ 32

/-- 32-bit right rotation (operand assumed `< 2^32`). -/
def rotr32 (n x : ℕ) : ℕ := w32 ((x >>> n) ||| (x <<< (32 - n)))

/-- SHA-256 `Σ0`. -/
def bsig0 (x : ℕ) : ℕ := rotr32 2 x ^^^ rotr32 13 x ^^^ rotr32 22 x

/-- SHA-256 `Σ1`. -/
def bsig1 (x : ℕ) : ℕ := rotr32 6 x ^^^ rotr32 11 x ^^^ rotr32 25 x

/-- SHA-256 `σ0`. -/
def ssig0 (x : ℕ) : ℕ := rotr32 7 x ^^^ rotr32 18 x ^^^ (x >>> 3)

/-- SHA-256 `σ1`. -/
def ssig1 (x : ℕ) : ℕ := rotr32 17 x ^^^ rotr32 19 x ^^^ (x >>> 10)

/-- SHA-256 `Ch` (complement taken within 32 bits). -/
def shaCh (x y z : ℕ) : ℕ := (x &&& y) ^^^ ((x ^^^ (2 ^ 32 - 1)) &&& z)

/-- SHA-256 `Maj`. -/
def shaMaj (x y z : ℕ) : ℕ := (x &&& y) ^^^ (x &&& z) ^^^ (y &&& z)

/-- The 64 SHA-256 round constants. -/
def SHA256_K : List ℕ :=
  [1116352408, 1899447441, 3049323471, 3921009573, 961987163,
   1508970993, 2453635748, 2870763221, 3624381080, 310598401,
   607225278, 1426881987, 1925078388, 2162078206, 2614888103,
   3248222580, 3835390401, 4022224774, 264347078, 604807628,
   770255983, 1249150122, 1555081692, 1996064986, 2554220882,
   2821834349, 2952996808, 3210313671, 3336571891, 3584528711,
   113926993, 338241895, 666307205, 773529912, 1294757372,
   1396182291, 1695183700, 1986661051, 2177026350, 2456956037,
   2730485921, 2820302411, 3259730800, 3345764771, 3516065817,
   3600352804, 4094571909, 275423344, 430227734, 506948616,
   659060556, 883997877, 958139571, 1322822218, 1537002063,
   1747873779, 1955562222, 2024104815, 2227730452, 2361852424,
   2428436474, 2756734187, 3204031479, 3329325298]

/-- Working state of the SHA-256 compression function (the eight 32-bit
chaining words). -/
structure Hash8 where
  a : ℕ
  b : ℕ
  c : ℕ
  d : ℕ
  e : ℕ
  f : ℕ
  g : ℕ
  h : ℕ
deriving DecidableEq, Repr

/-- The SHA-256 initial hash value. -/
def SHA256_H0 : Hash8 :=
  { a := 1779033703, b := 3144134277, c := 1013904242, d := 2773480762,
    e := 1359893119, f := 2600822924, g := 528734635, h := 1541459225 }

/-- Big-endian 8-byte rendering of the 64-bit message length. -/
def lenBytes64 (n : ℕ) : List ℕ :=
  [n >>> 56 % 256, n >>> 48 % 256, n >>> 40 % 256, n >>> 32 % 256,
   n >>> 24 % 256, n >>> 16 % 256, n >>> 8 % 256, n % 256]

/-- SHA-256 padding: `0x80`, zero bytes to 56 mod 64, then the bit length
big-endian in 8 bytes. -/
def sha256Pad (msg : List ℕ) : List ℕ :=
  msg ++ [0x80] ++ List.replicate ((119 - msg.length % 64) % 64) 0 ++
    lenBytes64 (8 * msg.length)

/-- Splits a byte list into 64-byte blocks (the final block is full for
any correctly padded input). -/
def chunks64 (l : List ℕ) : List (List ℕ) :=
  match l with
  | [] => []
  | b :: rest => (b :: rest.take 63) :: chunks64 (rest.drop 63)
termination_by l.length
decreasing_by
  simp only [List.length_drop, List.length_cons]
  omega

/-- Packs consecutive byte quadruples into big-endian 32-bit words. -/
def bytesToWords : List ℕ → List ℕ
  | a :: b :: c :: d :: rest =>
    (((a * 256 + b) * 256 + c) * 256 + d) :: bytesToWords rest
  | _ => []

/-- One step of the message-schedule extension: appends
`σ1(w[i-2]) + w[i-7] + σ0(w[i-15]) + w[i-16]` (mod 2^32). -/
def extendLoop : ℕ → List ℕ → List ℕ
  | 0, ws => ws
  | n + 1, ws =>
    let i := ws.length
    extendLoop n (ws ++ [w32 (ssig1 (ws.getD (i - 2) 0) + ws.getD (i - 7) 0 +
      ssig0 (ws.getD (i - 15) 0) + ws.getD (i - 16) 0)])

/-- The full 64-entry SHA-256 message schedule of one block. -/
def sha256Schedule (block : List ℕ) : List ℕ :=
  extendLoop 48 (bytesToWords block)

/-- One SHA-256 round; `kw` is `K[i] + W[i]` (mod 2^32). -/
def sha256Round (st : Hash8) (kw : ℕ) : Hash8 :=
  let t1 := w32 (st.h + bsig1 st.e + shaCh st.e st.f st.g + kw)
  let t2 := w32 (bsig0 st.a + shaMaj st.a st.b st.c)
  { a := w32 (t1 + t2), b := st.a, c := st.b, d := st.c,
    e := w32 (st.d + t1), f := st.e, g := st.f, h := st.g }

/-- The SHA-256 compression function over one 64-byte block. -/
def sha256Compress (st : Hash8) (block : List ℕ) : Hash8 :=
  let ws := sha256Schedule block
  let r := (List.zipWith (fun k w => w32 (k + w)) SHA256_K ws).foldl sha256Round st
  { a := w32 (st.a + r.a), b := w32 (st.b + r.b), c := w32 (st.c + r.c),
    d := w32 (st.d + r.d), e := w32 (st.e + r.e), f := w32 (st.f + r.f),
    g := w32 (st.g + r.g), h := w32 (st.h + r.h) }

/-- Big-endian byte rendering of one 32-bit word. -/
def wordBytes (x : ℕ) : List ℕ :=
  [x >>> 24 % 256, x >>> 16 % 256, x >>> 8 % 256, x % 256]

/-- SHA-256 of a byte list: the 32-byte digest. -/
def sha256 (msg : List ℕ) : List ℕ :=
  let st := (chunks64 (sha256Pad msg)).foldl sha256Compress SHA256_H0
  wordBytes st.a ++ wordBytes st.b ++ wordBytes st.c ++ wordBytes st.d ++
    wordBytes st.e ++ wordBytes st.f ++ wordBytes st.g ++ wordBytes st.h

/-- Big-endian bit decomposition of one byte. -/
def byteBits (b : ℕ) : List Bool :=
  [b.testBit 7, b.testBit 6, b.testBit 5, b.testBit 4,
   b.testBit 3, b.testBit 2, b.testBit 1, b.testBit 0]

/-- Big-endian bit stream of a byte list. -/
def bytesToBits (bs : List ℕ) : List Bool :=
  (bs.map byteBits).flatten

/-- Value of a (at most 5-bit) big-endian bit group. -/
def quintVal (bs : List Bool) : ℕ :=
  bs.foldl (fun acc b => 2 * acc + (if b then 1 else 0)) 0

/-- Zero-pads a bit group on the right to 5 bits (the base-32 encoder's
treatment of a trailing partial group). -/
def padTo5 (bs : List Bool) : List Bool :=
  bs ++ List.replicate (5 - bs.length) false

/-- Splits a bit stream into 5-bit group values, zero-padding the final
partial group. -/
def toQuintets : List Bool → List ℕ
  | [] => []
  | b1 :: b2 :: b3 :: b4 :: b5 :: rest => quintVal [b1, b2, b3, b4, b5] :: toQuintets rest
  | bs => [quintVal (padTo5 bs)]

/-- Crypto++'s default base-32 alphabet, lowercase variant (the
`Base32Encoder(NULL, false)` configuration of `CreateIdentifier`). -/
def BASE32_ALPHABET : String := "abcdefghijkmnpqrstuvwxyz23456789"

/-- Base-32 encoding of a byte list, as the character list of the encoded
string. -/
def base32Encode (bs : List ℕ) : List Char :=
  (toQuintets (bytesToBits bs)).map (fun q => BASE32_ALPHABET.data.getD q (Char.ofNat 0))

/-- `CreateIdentifier` (poet_enclave_sgx/common.cpp lines 42-61): SHA-256
digest of the signature string, base-32 encoded, truncated to the first
16 characters. -/
def CreateIdentifier (signature : String) : String :=
  String.mk ((base32Encode (sha256 (signature.data.map Char.toNat))).take 16)

/-- The `poet_enclave_sgx` Python-facing `WaitCertificate` wrapper: it
carries the serialized certificate string and its signature string
(as returned by `Poet_CreateWaitCertificate`). -/
structure PyWaitCertificate where
  serialized : String
  signature : String
deriving DecidableEq, Repr

/-- `WaitCertificate::identifier`
(poet_enclave_sgx/wait_certificate.cpp lines 84-91): the null identifier
for an empty signature, otherwise `CreateIdentifier` of the signature. -/
def PyWaitCertificate.identifier (c : PyWaitCertificate) : String :=
  if c.signature = "" then NULL_IDENTIFIER else CreateIdentifier c.signature

/-! ## Concrete scenario inputs used by witnesses and counterexamples -/

/-- A concrete signup identity (keypair seed 3). -/
def SD1 : ValidatorSignupData := { privateKey := 3, publicKey := 3 }

/-- A concrete genesis wait timer with sequence id 6. -/
def T1 : WaitTimer ℚ :=
  { Duration := 5, LocalMean := 5, PreviousCertificateId := NULL_IDENTIFIER,
    RequestTime := 10, SequenceId := 6, SgxRequestTime := 10,
    ValidatorAddress := "validatorAddrOne" }

/-- The enclave signature over `T1`'s serialization. -/
def TS1 : SgxSignature String := sgxEcdsaSign 3 (serializeWaitTimer T1)

/-- A concrete block hash. -/
def BH1 : String := "blockhash1"

/-- A concrete certificate nonce. -/
def N1 : String := "nonce1"

/-- A concrete signup identity for the expiration-gating scenario. -/
def SD2 : ValidatorSignupData := { privateKey := 3, publicKey := 3 }

/-- A non-genesis wait timer whose caller-supplied `RequestTime` (10000)
diverges from the boundary-sourced `SgxRequestTime` (50) recorded at
creation. -/
def T2 : WaitTimer ℚ :=
  { Duration := 5, LocalMean := 5, PreviousCertificateId := "aaaaaaaaaaaaaaaa",
    RequestTime := 10000, SequenceId := 7, SgxRequestTime := 50,
    ValidatorAddress := "validatorAddrTwo" }

/-- The enclave signature over `T2`'s serialization. -/
def TS2 : SgxSignature String := sgxEcdsaSign 3 (serializeWaitTimer T2)

/-- A non-genesis wait timer for the amended expiration-gating witness:
unexpired at boundary time 50 (`floor(100 + 5) = 105 > 50`). -/
def T2W : WaitTimer ℚ :=
  { Duration := 5, LocalMean := 5, PreviousCertificateId := "bbbbbbbbbbbbbbbb",
    RequestTime := 100, SequenceId := 4, SgxRequestTime := 100,
    ValidatorAddress := "validatorAddrTwoW" }

/-- The enclave signature over `T2W`'s serialization. -/
def TS2W : SgxSignature String := sgxEcdsaSign 3 (serializeWaitTimer T2W)

/-- A non-genesis wait timer whose caller-supplied `RequestTime` (0)
diverges from the boundary-sourced `SgxRequestTime` (1000). -/
def T3 : WaitTimer ℚ :=
  { Duration := 5, LocalMean := 5, PreviousCertificateId := "cccccccccccccccc",
    RequestTime := 0, SequenceId := 9, SgxRequestTime := 1000,
    ValidatorAddress := "validatorAddrThree" }

/-- The enclave signature over `T3`'s serialization. -/
def TS3 : SgxSignature String := sgxEcdsaSign 3 (serializeWaitTimer T3)

/-- A non-genesis wait timer for the amended timeout-gating witness:
timed out at boundary time 100 (`ceil(10 + 5 + 30) = 45 < 100`). -/
def T3W : WaitTimer ℚ :=
  { Duration := 5, LocalMean := 5, PreviousCertificateId := "dddddddddddddddd",
    RequestTime := 10, SequenceId := 2, SgxRequestTime := 10,
    ValidatorAddress := "validatorAddrThreeW" }

/-- The enclave signature over `T3W`'s serialization. -/
def TS3W : SgxSignature String := sgxEcdsaSign 3 (serializeWaitTimer T3W)

/-- A concrete signup identity for the round-trip scenario (seed 4). -/
def SD5 : ValidatorSignupData := { privateKey := 4, publicKey := 4 }

/-- A concrete genesis wait timer for the round-trip scenario. -/
def T5 : WaitTimer ℚ :=
  { Duration := 7, LocalMean := 5, PreviousCertificateId := NULL_IDENTIFIER,
    RequestTime := 20, SequenceId := 11, SgxRequestTime := 20,
    ValidatorAddress := "validatorAddrFive" }

/-- The enclave signature over `T5`'s serialization. -/
def TS5 : SgxSignature String := sgxEcdsaSign 4 (serializeWaitTimer T5)

/-- A validator address of legal length (30 characters) for the bridge
validation witness. -/
def ADDR6 : String := "012345678901234567890123456789"

/-- A previous certificate id of legal length (16 characters). -/
def PREV6 : String := "eeeeeeeeeeeeeeee"

/-- The certificate a successful certification of `T1` builds. -/
def CERT1 : WaitCertificate :=
  { BlockHash := BH1, Duration := 5, LocalMean := 5, Nonce := N1,
    PreviousCertID := NULL_IDENTIFIER, RequestTime := 10,
    ValidatorAddress := "validatorAddrOne" }

/-- The certificate a successful certification of `T2` builds. -/
def CERT2 : WaitCertificate :=
  { BlockHash := BH1, Duration := 5, LocalMean := 5, Nonce := N1,
    PreviousCertID := "aaaaaaaaaaaaaaaa", RequestTime := 10000,
    ValidatorAddress := "validatorAddrTwo" }

/-- The certificate a successful certification of `T5` builds. -/
def CERT5 : WaitCertificate :=
  { BlockHash := BH1, Duration := 7, LocalMean := 5, Nonce := N1,
    PreviousCertID := NULL_IDENTIFIER, RequestTime := 20,
    ValidatorAddress := "validatorAddrFive" }

/-- A simulator wait timer carrying a signature produced with the wrong
key (seed 5 instead of the module's wait-timer key), so its signature
check fails. -/
def T9 : SimWaitTimer :=
  { duration := 5, local_mean := 5, minimum_wait_time := 1,
    previous_certificate_id := "ffffffffffffffff", request_time := 0,
    signature := sgxEcdsaSign 5 ("bogus") }

/-! ## Helper lemmas -/

/-- A signature verifies against the public half of the key that produced
it, over the exact message it signed. -/
theorem sgxEcdsaVerify_sign_self {μ : Type} [DecidableEq μ] (k : ℕ) (m : μ) :
    sgxEcdsaVerify m (sgxDerivePublicKey k) (sgxEcdsaSign k m) = true := by
  simp [sgxEcdsaVerify, sgxEcdsaSign]

/-- Inversion of a successful `ecall_CreateWaitCertificate`: the timer
signature verified, the counter matched the timer's sequence id, the
serialization and signature are those of the built certificate, and the
final counter increment advanced the state by one. -/
theorem ecall_CreateWaitCertificate_ok_inversion
    (s : EnclaveState) (signup : ValidatorSignupData) (T : WaitTimer ℚ)
    (tsig : SgxSignature String) (bh nonce : String) (now : ℕ)
    (cert : WaitCertificate) (ser : String) (sig : SgxSignature String)
    (s₂ : EnclaveState)
    (h : ecall_CreateWaitCertificate s signup T tsig bh nonce now =
      Except.ok (cert, ser, sig, s₂)) :
    sgxEcdsaVerify (serializeWaitTimer T) signup.publicKey tsig = true ∧
    s.counter = T.SequenceId ∧
    ser = serializeWaitCertificate cert ∧
    sig = sgxEcdsaSign signup.privateKey (serializeWaitCertificate cert) ∧
    s₂ = { counter := s.counter + 1 } := by
  unfold ecall_CreateWaitCertificate at h
  split at h
  case isTrue => cases h
  case isFalse hsig =>
    split at h
    case isTrue => cases h
    case isFalse hseq =>
      split at h
      case isTrue => cases h
      case isFalse =>
        split at h
        case isTrue => cases h
        case isFalse =>
          simp only [Except.ok.injEq, Prod.mk.injEq] at h
          obtain ⟨hc, hser, hsg, hst⟩ := h
          subst hc
          refine ⟨by simpa using hsig, by omega, hser.symm, hsg.symm, hst.symm⟩

/-- With a verifying timer signature but a counter different from the
timer's sequence id, `ecall_CreateWaitCertificate` fails with the
out-of-sequence `ValueError`. -/
theorem ecall_CreateWaitCertificate_out_of_sequence
    (s : EnclaveState) (signup : ValidatorSignupData) (T : WaitTimer ℚ)
    (tsig : SgxSignature String) (bh nonce : String) (now : ℕ)
    (hsig : sgxEcdsaVerify (serializeWaitTimer T) signup.publicKey tsig = true)
    (hne : s.counter ≠ T.SequenceId) :
    ecall_CreateWaitCertificate s signup T tsig bh nonce now =
      Except.error (PoetError.valueError outOfSequenceMsg) := by
  unfold ecall_CreateWaitCertificate
  simp [hsig, hne]

/-- One enclave step never decreases the monotonic counter. -/
theorem enclaveStep_counter_le {s s₂ : EnclaveState} (h : EnclaveStep s s₂) :
    s.counter ≤ s₂.counter := by
  cases h with
  | createWaitTimer signup addr prev reqT lm sgxNow dur =>
    simp [ecall_CreateWaitTimer]
  | createWaitCertificateOk signup timer tsig bh nonce now out hok =>
    obtain ⟨c, ser, sg, st⟩ := out
    have hinv := ecall_CreateWaitCertificate_ok_inversion s signup timer tsig
      bh nonce now c ser sg st hok
    simp [hinv.2.2.2.2]
  | createWaitCertificateErr => exact le_refl _
  | verifyWaitCertificate now c sig pk =>
    simp [enclaveVerifyWaitCertificateOp]

/-- Reachability never decreases the monotonic counter. -/
theorem enclaveReachable_counter_le {s s₂ : EnclaveState}
    (h : EnclaveReachable s s₂) : s.counter ≤ s₂.counter := by
  induction h with
  | refl => exact le_refl _
  | tail _ hstep ih => exact le_trans ih (enclaveStep_counter_le hstep)

/-! ## Claim theorems -/

/-- C1.  At-most-once certification: a timer's `SequenceId` records the
replay-counter value produced by the advancing increment at timer
creation; a successful `ecall_CreateWaitCertificate` with timer `T`
found the counter equal to `T.SequenceId` and advanced it to
`T.SequenceId + 1` as its final step, so on every state reachable by
further boundary calls a second certification of the same `T` fails
with the out-of-sequence `ValueError`. -/
theorem c1_at_most_once_certification
    (s : EnclaveState) (signup : ValidatorSignupData) (T : WaitTimer ℚ)
    (tsig : SgxSignature String) (bh nonce : String) (now : ℕ)
    (out : WaitCertificate × String × SgxSignature String × EnclaveState)
    (h : ecall_CreateWaitCertificate s signup T tsig bh nonce now = Except.ok out) :
    s.counter = T.SequenceId ∧
    out.2.2.2.counter = T.SequenceId + 1 ∧
    (∀ s₂ : EnclaveState, EnclaveReachable out.2.2.2 s₂ →
      ∀ (bh₂ nonce₂ : String) (now₂ : ℕ),
        ecall_CreateWaitCertificate s₂ signup T tsig bh₂ nonce₂ now₂ =
          Except.error (PoetError.valueError outOfSequenceMsg)) ∧
    (∀ (s₀ : EnclaveState) (signup₀ : ValidatorSignupData) (addr prev : String)
        (reqT lm sgxNow dur : ℚ),
      (ecall_CreateWaitTimer s₀ signup₀ addr prev reqT lm sgxNow dur).1.SequenceId =
        s₀.counter + 1 ∧
      (ecall_CreateWaitTimer s₀ signup₀ addr prev reqT lm sgxNow dur).2.2.counter =
        s₀.counter + 1) := by
  obtain ⟨c, ser, sg, st⟩ := out
  have hinv := ecall_CreateWaitCertificate_ok_inversion s signup T tsig
    bh nonce now c ser sg st h
  obtain ⟨hsig, hseq, -, -, hst⟩ := hinv
  refine ⟨hseq, ?_, ?_, ?_⟩
  · simp [hst, hseq]
  · intro s₂ hreach bh₂ nonce₂ now₂
    have hle : st.counter ≤ s₂.counter := enclaveReachable_counter_le hreach
    have hgt : T.SequenceId < s₂.counter := by
      have : st.counter = s.counter + 1 := by simp [hst]
      omega
    exact ecall_CreateWaitCertificate_out_of_sequence s₂ signup T tsig
      bh₂ nonce₂ now₂ hsig (by omega)
  · intro s₀ signup₀ addr prev reqT lm sgxNow dur
    constructor <;> simp [ecall_CreateWaitTimer]

/-- Witness for C1 at a concrete genesis scenario: the first
certification of `T1` succeeds and the immediate retry with the same
timer and signature fails with the out-of-sequence `ValueError`. -/
theorem c1_at_most_once_certification_witness :
    ecall_CreateWaitCertificate { counter := 6 } SD1 T1 TS1 BH1 N1 20 =
      Except.ok (CERT1, serializeWaitCertificate CERT1,
        sgxEcdsaSign 3 (serializeWaitCertificate CERT1), { counter := 7 }) ∧
    ecall_CreateWaitCertificate { counter := 7 } SD1 T1 TS1 BH1 N1 21 =
      Except.error (PoetError.valueError outOfSequenceMsg) := by
  have h : ecall_CreateWaitCertificate { counter := 6 } SD1 T1 TS1 BH1 N1 20 =
      Except.ok (CERT1, serializeWaitCertificate CERT1,
        sgxEcdsaSign 3 (serializeWaitCertificate CERT1), { counter := 7 }) := by
    simp [ecall_CreateWaitCertificate, sgxEcdsaVerify, sgxDerivePublicKey,
      SD1, T1, TS1, sgxEcdsaSign, NULL_IDENTIFIER, CERT1, BH1, N1]
  refine ⟨h, ?_⟩
  exact (c1_at_most_once_certification { counter := 6 } SD1 T1 TS1 BH1 N1 20
    _ h).2.2.1 { counter := 7 } Relation.ReflTransGen.refl BH1 N1 21

/-- C2 counterexample.  The claim computes `expire_time` from the
caller-supplied `RequestTime` recorded in the timer; the code computes it
from the boundary-sourced `SgxRequestTime` (poet_enclave.cpp lines
872-873).  For timer `T2` (caller `RequestTime = 10000`, boundary
`SgxRequestTime = 50`, `Duration = 5`) at boundary time 60 the claim's
condition `floor(RequestTime + Duration) > current_time` holds with a
non-null previous certificate id, yet the call succeeds instead of
rejecting with "timer not expired". -/
theorem c2_expiration_gating_counterexample :
    (((⌊T2.RequestTime + T2.Duration⌋ : ℤ) : ℚ) > ((60 : ℚ))) ∧
    T2.PreviousCertificateId ≠ NULL_IDENTIFIER ∧
    ecall_CreateWaitCertificate { counter := 7 } SD2 T2 TS2 BH1 N1 60 =
      Except.ok (CERT2, serializeWaitCertificate CERT2,
        sgxEcdsaSign 3 (serializeWaitCertificate CERT2), { counter := 8 }) := by
  refine ⟨by norm_num [T2], by decide, ?_⟩
  norm_num [ecall_CreateWaitCertificate, sgxEcdsaVerify, sgxDerivePublicKey,
    SD2, T2, TS2, sgxEcdsaSign, NULL_IDENTIFIER, TIMER_TIMEOUT_PERIOD, CERT2,
    BH1, N1]

/-- C2 (amended).  With the timer-signature and sequence checks passing,
`ecall_CreateWaitCertificate` rejects with `ValueError` "Wait timer has
not expired" exactly when `floor(timer.SgxRequestTime + timer.Duration) >
current_time` — the request time being the boundary-sourced
`SgxRequestTime` recorded in the timer, not the caller-supplied
`RequestTime` — and the timer's previous certificate id is not the null
identifier; when the previous certificate id is the null identifier the
certificate is created even though the timer has not expired (genesis
bypass). -/
theorem c2_expiration_gating_amended
    (s : EnclaveState) (signup : ValidatorSignupData) (T : WaitTimer ℚ)
    (tsig : SgxSignature String) (bh nonce : String) (now : ℕ)
    (hsig : sgxEcdsaVerify (serializeWaitTimer T) signup.publicKey tsig = true)
    (hseq : s.counter = T.SequenceId) :
    (ecall_CreateWaitCertificate s signup T tsig bh nonce now =
        Except.error (PoetError.valueError notExpiredMsg) ↔
      (((⌊T.SgxRequestTime + T.Duration⌋ : ℤ) : ℚ) > ((now : ℚ)) ∧
        T.PreviousCertificateId ≠ NULL_IDENTIFIER)) ∧
    (T.PreviousCertificateId = NULL_IDENTIFIER →
      ∃ out, ecall_CreateWaitCertificate s signup T tsig bh nonce now =
        Except.ok out) := by
  have hcur : ((⌈((now : ℚ))⌉ : ℤ) : ℚ) = ((now : ℚ)) := by
    rw [Int.ceil_natCast]
    norm_num
  constructor
  · constructor
    · intro h
      unfold ecall_CreateWaitCertificate at h
      split at h
      case isTrue hs => rw [hsig] at hs; cases hs
      case isFalse =>
        split at h
        case isTrue hs => exact absurd hseq hs
        case isFalse =>
          split at h
          case isTrue hexp => rw [hcur] at hexp; exact hexp
          case isFalse hexp =>
            split at h
            case isTrue hto =>
              have : timedOutMsg = notExpiredMsg := by
                injection h with h₂
                injection h₂
              exact absurd this (by decide)
            case isFalse => simp at h
    · intro hcond
      unfold ecall_CreateWaitCertificate
      rw [hsig]
      simp only [hseq, hcur]
      simp [hcond.1, hcond.2]
  · intro hnull
    refine ⟨(⟨bh, T.Duration, T.LocalMean, nonce, T.PreviousCertificateId,
        T.RequestTime, T.ValidatorAddress⟩,
      serializeWaitCertificate ⟨bh, T.Duration, T.LocalMean, nonce,
        T.PreviousCertificateId, T.RequestTime, T.ValidatorAddress⟩,
      sgxEcdsaSign signup.privateKey (serializeWaitCertificate ⟨bh, T.Duration,
        T.LocalMean, nonce, T.PreviousCertificateId, T.RequestTime,
        T.ValidatorAddress⟩),
      ⟨s.counter + 1⟩), ?_⟩
    unfold ecall_CreateWaitCertificate
    rw [hsig]
    simp [hseq, hnull]

/-- Witness for the amended C2: timer `T2W` (boundary request time 100,
duration 5, non-null previous id) requested at boundary time 50 is
rejected as not expired. -/
theorem c2_expiration_gating_amended_witness :
    ecall_CreateWaitCertificate { counter := 4 } SD2 T2W TS2W BH1 N1 50 =
      Except.error (PoetError.valueError notExpiredMsg) := by
  have h := (c2_expiration_gating_amended { counter := 4 } SD2 T2W TS2W BH1 N1 50
    (sgxEcdsaVerify_sign_self 3 (serializeWaitTimer T2W)) rfl).1
  exact h.mpr ⟨by norm_num [T2W], by decide⟩

/-- C3 counterexample.  The claim computes `timeout_time` from the
caller-supplied `RequestTime` recorded in the timer; the code computes it
from the boundary-sourced `SgxRequestTime` (poet_enclave.cpp lines
894-897).  For timer `T3` (caller `RequestTime = 0`, boundary
`SgxRequestTime = 1000`, `Duration = 5`) at boundary time 100 the claim's
condition `ceil(RequestTime + Duration + TIMER_TIMEOUT_PERIOD) <
current_time` holds with a non-null previous certificate id, yet the call
rejects with "Wait timer has not expired", not with "Wait timer has timed
out". -/
theorem c3_timeout_gating_counterexample :
    (((⌈T3.RequestTime + T3.Duration + TIMER_TIMEOUT_PERIOD⌉ : ℤ) : ℚ) < ((100 : ℚ))) ∧
    T3.PreviousCertificateId ≠ NULL_IDENTIFIER ∧
    ecall_CreateWaitCertificate { counter := 9 } SD2 T3 TS3 BH1 N1 100 =
      Except.error (PoetError.valueError notExpiredMsg) ∧
    notExpiredMsg ≠ timedOutMsg := by
  refine ⟨by norm_num [T3, TIMER_TIMEOUT_PERIOD], by decide, ?_, by decide⟩
  norm_num [ecall_CreateWaitCertificate, sgxEcdsaVerify, sgxDerivePublicKey,
    SD2, T3, TS3, sgxEcdsaSign, NULL_IDENTIFIER, TIMER_TIMEOUT_PERIOD]
  intro hx
  exact absurd hx (by decide)

/-- C3 (amended).  With the timer-signature and sequence checks passing,
`ecall_CreateWaitCertificate` rejects with `ValueError` "Wait timer has
timed out" exactly when `ceil(timer.SgxRequestTime + timer.Duration +
TIMER_TIMEOUT_PERIOD) < current_time` — the request time being the
boundary-sourced `SgxRequestTime` recorded in the timer, not the
caller-supplied `RequestTime` — and the timer's previous certificate id
is not the null identifier (the preceding not-expired rejection cannot
fire on such an input, since the timeout bound exceeds the expiry
bound). -/
theorem c3_timeout_gating_amended
    (s : EnclaveState) (signup : ValidatorSignupData) (T : WaitTimer ℚ)
    (tsig : SgxSignature String) (bh nonce : String) (now : ℕ)
    (hsig : sgxEcdsaVerify (serializeWaitTimer T) signup.publicKey tsig = true)
    (hseq : s.counter = T.SequenceId) :
    ecall_CreateWaitCertificate s signup T tsig bh nonce now =
        Except.error (PoetError.valueError timedOutMsg) ↔
      (((⌈T.SgxRequestTime + T.Duration + TIMER_TIMEOUT_PERIOD⌉ : ℤ) : ℚ) <
          ((now : ℚ)) ∧
        T.PreviousCertificateId ≠ NULL_IDENTIFIER) := by
  have hcur : ((⌈((now : ℚ))⌉ : ℤ) : ℚ) = ((now : ℚ)) := by
    rw [Int.ceil_natCast]
    norm_num
  have hbound : ((⌊T.SgxRequestTime + T.Duration⌋ : ℤ) : ℚ) ≤
      ((⌈T.SgxRequestTime + T.Duration + TIMER_TIMEOUT_PERIOD⌉ : ℤ) : ℚ) := by
    have h₁ : ((⌊T.SgxRequestTime + T.Duration⌋ : ℤ) : ℚ) ≤
        T.SgxRequestTime + T.Duration := Int.floor_le _
    have h₂ : T.SgxRequestTime + T.Duration + TIMER_TIMEOUT_PERIOD ≤
        ((⌈T.SgxRequestTime + T.Duration + TIMER_TIMEOUT_PERIOD⌉ : ℤ) : ℚ) :=
      Int.le_ceil _
    have h₃ : (0 : ℚ) ≤ TIMER_TIMEOUT_PERIOD := by norm_num [TIMER_TIMEOUT_PERIOD]
    linarith
  constructor
  · intro h
    unfold ecall_CreateWaitCertificate at h
    split at h
    case isTrue hs => rw [hsig] at hs; cases hs
    case isFalse =>
      split at h
      case isTrue hs => exact absurd hseq hs
      case isFalse =>
        split at h
        case isTrue hexp =>
          have : notExpiredMsg = timedOutMsg := by
            injection h with h₂
            injection h₂
          exact absurd this (by decide)
        case isFalse =>
          split at h
          case isTrue hto => rw [hcur] at hto; exact hto
          case isFalse => simp at h
  · intro hcond
    have hnA : ¬(((now : ℚ)) < ((⌊T.SgxRequestTime + T.Duration⌋ : ℤ) : ℚ)) := by
      have := hcond.1
      linarith [hbound]
    unfold ecall_CreateWaitCertificate
    rw [hsig]
    simp only [hseq, hcur]
    simp [hnA, hcond.1, hcond.2]

/-- Witness for the amended C3: timer `T3W` (boundary request time 10,
duration 5, non-null previous id) requested at boundary time 100 — past
`ceil(10 + 5 + 30) = 45` — is rejected as timed out. -/
theorem c3_timeout_gating_amended_witness :
    ecall_CreateWaitCertificate { counter := 2 } SD2 T3W TS3W BH1 N1 100 =
      Except.error (PoetError.valueError timedOutMsg) := by
  have h := c3_timeout_gating_amended { counter := 2 } SD2 T3W TS3W BH1 N1 100
    (sgxEcdsaVerify_sign_self 3 (serializeWaitTimer T3W)) rfl
  exact h.mpr ⟨by norm_num [T3W, TIMER_TIMEOUT_PERIOD], by decide⟩

/-- C4.  Duration floor: for every `local_mean > 0` the sampled duration
is at least `MINIMUM_WAIT_TIME = 1.0` under both derivations — the keyed
derivation `1 - local_mean * log u` for any keyed value `u ∈ [0, 1]`
(where `log u ≤ 0`), and the simulator derivation `1 + wait` for any
non-negative exponential sample `wait`. -/
theorem c4_duration_floor :
    (∀ localMean hashAsDouble : ℝ, 0 < localMean → 0 ≤ hashAsDouble →
      hashAsDouble ≤ 1 →
      ((MINIMUM_WAIT_TIME : ℚ) : ℝ) ≤ GenerateWaitTimerDuration hashAsDouble localMean) ∧
    (∀ wait : ℚ, 0 ≤ wait → MINIMUM_WAIT_TIME ≤ ComputeDuration wait) := by
  constructor
  · intro m u hm hu0 hu1
    unfold GenerateWaitTimerDuration
    have hlog : Real.log u ≤ 0 := Real.log_nonpos hu0 hu1
    nlinarith
  · intro w hw
    unfold ComputeDuration
    linarith

/-- Witness for C4 at `local_mean = 1`, keyed value `u = 1` and simulator
sample `wait = 0`. -/
theorem c4_duration_floor_witness :
    ((MINIMUM_WAIT_TIME : ℚ) : ℝ) ≤ GenerateWaitTimerDuration 1 1 ∧
    MINIMUM_WAIT_TIME ≤ ComputeDuration 0 :=
  ⟨c4_duration_floor.1 1 1 (by norm_num) (by norm_num) (by norm_num),
   c4_duration_floor.2 0 (by norm_num)⟩

/-- C5.  Signature round-trip and stateless verification: every
certificate returned by a successful `ecall_CreateWaitCertificate` for an
identity verifies under `ecall_VerifyWaitCertificate` against that
identity's public key; and the verification operation is determined by
the certificate, signature and public key alone — lifted to the stateful
boundary signature it neither reads nor writes the enclave state or the
trusted time. -/
theorem c5_signature_roundtrip_stateless
    (s : EnclaveState) (signup : ValidatorSignupData) (T : WaitTimer ℚ)
    (tsig : SgxSignature String) (bh nonce : String) (now : ℕ)
    (cert : WaitCertificate) (ser : String) (sig : SgxSignature String)
    (s₂ : EnclaveState)
    (h : ecall_CreateWaitCertificate s signup T tsig bh nonce now =
      Except.ok (cert, ser, sig, s₂)) :
    ecall_VerifyWaitCertificate ser sig (sgxDerivePublicKey signup.privateKey) =
      Except.ok () ∧
    (∀ (s₃ s₄ : EnclaveState) (n₃ n₄ : ℕ),
      (enclaveVerifyWaitCertificateOp s₃ n₃ ser sig
          (sgxDerivePublicKey signup.privateKey)).1 =
        (enclaveVerifyWaitCertificateOp s₄ n₄ ser sig
          (sgxDerivePublicKey signup.privateKey)).1) ∧
    (∀ (s₃ : EnclaveState) (n₃ : ℕ),
      (enclaveVerifyWaitCertificateOp s₃ n₃ ser sig
          (sgxDerivePublicKey signup.privateKey)).2 = s₃) := by
  obtain ⟨-, -, hser, hsg, -⟩ := ecall_CreateWaitCertificate_ok_inversion s signup
    T tsig bh nonce now cert ser sig s₂ h
  refine ⟨?_, fun s₃ s₄ n₃ n₄ => rfl, fun s₃ n₃ => rfl⟩
  rw [hser, hsg]
  unfold ecall_VerifyWaitCertificate
  rw [sgxEcdsaVerify_sign_self]
  simp

/-- Witness for C5: the certificate minted from the concrete genesis
timer `T5` under identity `SD5` verifies against `SD5`'s public key. -/
theorem c5_signature_roundtrip_stateless_witness :
    ecall_VerifyWaitCertificate (serializeWaitCertificate CERT5)
      (sgxEcdsaSign 4 (serializeWaitCertificate CERT5))
      (sgxDerivePublicKey 4) = Except.ok () := by
  have h : ecall_CreateWaitCertificate { counter := 11 } SD5 T5 TS5 BH1 N1 30 =
      Except.ok (CERT5, serializeWaitCertificate CERT5,
        sgxEcdsaSign 4 (serializeWaitCertificate CERT5), { counter := 12 }) := by
    simp [ecall_CreateWaitCertificate, sgxEcdsaVerify, sgxDerivePublicKey,
      SD5, T5, TS5, sgxEcdsaSign, NULL_IDENTIFIER, CERT5, BH1, N1]
  exact (c5_signature_roundtrip_stateless { counter := 11 } SD5 T5 TS5 BH1 N1 30
    CERT5 _ _ _ h).1

/-- C6.  Early input validation: whenever `local_mean ≤ 0`, or the
validator address length lies outside 26-66, or the previous certificate
id length differs from 16, `Poet_CreateWaitTimer` returns a `ValueError`
and does so before any enclave call — the enclave state is unchanged. -/
theorem c6_early_input_validation
    (es : EnclaveState) (signup : ValidatorSignupData)
    (addr prev : String) (reqTime localMean : ℚ)
    (timerLen sigLen : ℕ) (sgxNow duration : ℚ)
    (h : localMean ≤ 0 ∨ addr.length > MAX_ADDRESS_LENGTH ∨
      addr.length < MIN_ADDRESS_LENGTH ∨ prev.length ≠ CERTIFICATE_ID_LENGTH) :
    (∃ msg, (Poet_CreateWaitTimer es signup addr prev reqTime localMean
        timerLen sigLen sgxNow duration).1 =
      Except.error (PoetError.valueError msg)) ∧
    (Poet_CreateWaitTimer es signup addr prev reqTime localMean
        timerLen sigLen sgxNow duration).2 = es := by
  unfold Poet_CreateWaitTimer
  split_ifs with h1 h2 h3 h4 h5
  · exact ⟨⟨invalidAddressMsg, rfl⟩, rfl⟩
  · exact ⟨⟨timerBufferMsg, rfl⟩, rfl⟩
  · exact ⟨⟨sigBufferMsg, rfl⟩, rfl⟩
  · exact ⟨⟨invalidLocalMeanMsg, rfl⟩, rfl⟩
  · exact ⟨⟨invalidPrevCertIdMsg, rfl⟩, rfl⟩
  · exfalso
    rcases h with h | h | h
    · exact h4 h
    · exact h1 (Or.inl h)
    · rcases h with h | h
      · exact h1 (Or.inr h)
      · exact h5 h

/-- Witness for C6: a well-sized call with `local_mean = -1` is rejected
with a `ValueError` and the enclave state is untouched. -/
theorem c6_early_input_validation_witness :
    (∃ msg, (Poet_CreateWaitTimer { counter := 0 }
        { privateKey := 2, publicKey := 2 } ADDR6 PREV6 0 (-1) 2048 89 0 5).1 =
      Except.error (PoetError.valueError msg)) ∧
    (Poet_CreateWaitTimer { counter := 0 } { privateKey := 2, publicKey := 2 }
        ADDR6 PREV6 0 (-1) 2048 89 0 5).2 = { counter := 0 } :=
  c6_early_input_validation { counter := 0 } { privateKey := 2, publicKey := 2 }
    ADDR6 PREV6 0 (-1) 2048 89 0 5 (Or.inl (by norm_num))

/-- The SHA-256 digest always has 32 bytes (it is assembled from eight
4-byte words). -/
theorem sha256_length (msg : List ℕ) : (sha256 msg).length = 32 := by
  simp [sha256, wordBytes]

/-- The big-endian bit stream of `n` bytes has `8 * n` bits. -/
theorem bytesToBits_length (bs : List ℕ) :
    (bytesToBits bs).length = 8 * bs.length := by
  induction bs with
  | nil => simp [bytesToBits]
  | cons b rest ih =>
    simp [bytesToBits, byteBits] at ih ⊢
    omega

/-- A bit stream of `n` bits yields `ceil(n / 5)` base-32 groups. -/
theorem toQuintets_length : ∀ l : List Bool,
    (toQuintets l).length = (l.length + 4) / 5
  | [] => by simp [toQuintets]
  | [b1] => by simp [toQuintets]
  | [b1, b2] => by simp [toQuintets]
  | [b1, b2, b3] => by simp [toQuintets]
  | [b1, b2, b3, b4] => by simp [toQuintets]
  | b1 :: b2 :: b3 :: b4 :: b5 :: rest => by
    have ih := toQuintets_length rest
    simp [toQuintets, ih]
    omega

/-- The base-32 encoding of a SHA-256 digest has 52 characters. -/
theorem base32Encode_sha256_length (msg : List ℕ) :
    (base32Encode (sha256 msg)).length = 52 := by
  simp [base32Encode, toQuintets_length, bytesToBits_length, sha256_length]

/-- C7.  Identifier derivation: `WaitCertificate::identifier` returns a
string of exactly 16 characters; for a non-empty signature it is exactly
the first 16 characters of the base-32 encoding of the SHA-256 digest of
the signature string, and for an empty signature it is the distinguished
null identifier. -/
theorem c7_identifier_derivation (c : PyWaitCertificate) :
    c.identifier.length = 16 ∧
    (c.signature ≠ "" → c.identifier =
      String.mk ((base32Encode (sha256 (c.signature.data.map Char.toNat))).take 16)) ∧
    (c.signature = "" → c.identifier = NULL_IDENTIFIER) := by
  refine ⟨?_, ?_, ?_⟩
  · by_cases hs : c.signature = ""
    · simp only [PyWaitCertificate.identifier, hs, if_pos]
      decide
    · simp only [PyWaitCertificate.identifier, hs, if_neg, CreateIdentifier]
      have hlen := base32Encode_sha256_length (c.signature.data.map Char.toNat)
      simp [String.length, List.length_take, hlen]
  · intro hs
    simp [PyWaitCertificate.identifier, hs, CreateIdentifier]
  · intro hs
    simp [PyWaitCertificate.identifier, hs]

/-- Witness for C7 at the concrete non-empty signature `"ab"`. -/
theorem c7_identifier_derivation_witness :
    ("ab" : String) ≠ "" ∧
    (⟨("serialized"), ("ab")⟩ : PyWaitCertificate).identifier =
      String.mk ((base32Encode (sha256 (("ab" : String).data.map
        Char.toNat))).take 16) :=
  ⟨by decide, (c7_identifier_derivation ⟨("serialized"), ("ab")⟩).2.1 (by decide)⟩

/-- An all-busy status sequence of sufficient length makes the retry loop
perform exactly `retries + 1 - count` invocations (each preceded by a
sleep) and surface `SGX_ERROR_DEVICE_BUSY`. -/
theorem callSgxLoop_all_busy (retries : ℕ) :
    ∀ (results : List SgxStatus) (count : ℕ),
    (∀ r ∈ results, r = SgxStatus.SGX_ERROR_DEVICE_BUSY) → count ≤ retries →
    retries + 1 - count ≤ results.length →
    callSgxLoop retries results count =
      { result := some SgxStatus.SGX_ERROR_DEVICE_BUSY,
        invocations := retries + 1 - count, reloads := 0,
        sleeps := retries + 1 - count }
  | [], count => by
    intro _ hc hl
    simp at hl
    omega
  | r :: rest, count => by
    intro hall hc hl
    have hr : r = SgxStatus.SGX_ERROR_DEVICE_BUSY := hall r (by simp)
    subst hr
    by_cases hcount : count + 1 ≤ retries
    · have ih := callSgxLoop_all_busy retries rest (count + 1)
        (fun x hx => hall x (by simp [hx])) hcount
        (by simp at hl ⊢; omega)
      simp [callSgxLoop, hcount, ih, CallSgxTrace.mk.injEq]
      omega
    · have hce : count = retries := by omega
      subst hce
      simp [callSgxLoop, hcount, CallSgxTrace.mk.injEq]

/-- The retry loop surfaces a status (rather than iterating further) as
soon as the provided result sequence is longer than the remaining busy
budget plus the number of enclave-lost results in it. -/
theorem callSgxLoop_isSome (retries : ℕ) :
    ∀ (results : List SgxStatus) (count : ℕ),
    retries - count + lostCount results < results.length →
    (callSgxLoop retries results count).result.isSome = true
  | [], count => by
    intro hl
    simp [lostCount] at hl
  | r :: rest, count => by
    intro hl
    cases r with
    | SGX_ERROR_ENCLAVE_LOST =>
      have ih := callSgxLoop_isSome retries rest count
        (by simp [lostCount] at hl ⊢; omega)
      simp [callSgxLoop, ih]
    | SGX_ERROR_DEVICE_BUSY =>
      by_cases hcount : count + 1 ≤ retries
      · have ih := callSgxLoop_isSome retries rest (count + 1)
          (by simp [lostCount] at hl ⊢; omega)
        simp [callSgxLoop, hcount, ih]
      · simp [callSgxLoop, hcount]
    | SGX_SUCCESS => simp [callSgxLoop]
    | SGX_OTHER_ERROR code => simp [callSgxLoop]

/-- C8 counterexample.  `Enclave::CallSgx` does not reload at most once
per wrapped call: for the result sequence lost, lost, success it reloads
the enclave twice before succeeding, and after 100 consecutive
enclave-lost results the loop is still iterating (the reload-and-retry
is unbounded, so termination is not guaranteed). -/
theorem c8_bounded_retry_counterexample :
    (Enclave.CallSgx
      [SgxStatus.SGX_ERROR_ENCLAVE_LOST, SgxStatus.SGX_ERROR_ENCLAVE_LOST,
        SgxStatus.SGX_SUCCESS] CALLSGX_DEFAULT_RETRIES).reloads = 2 ∧
    (Enclave.CallSgx (List.replicate 100 SgxStatus.SGX_ERROR_ENCLAVE_LOST)
      CALLSGX_DEFAULT_RETRIES).result = none := by
  constructor
  · rfl
  · decide

/-- C8 (amended).  The defaults are 5 retries at 100 ms; a transient-busy
result is retried at most 5 times with a sleep before each retry, the
all-busy call performing exactly 6 invocations and 6 sleeps before
surfacing `SGX_ERROR_DEVICE_BUSY`; an enclave-lost result triggers a
reload followed by a retry of the original call every time it occurs
(not once per wrapped call); and the loop is guaranteed to surface a
status when the wrapped call produces enclave-lost only finitely often —
concretely, once the result sequence is longer than the busy budget plus
its number of enclave-lost results. -/
theorem c8_bounded_retry_amended (results : List SgxStatus) (retries : ℕ) :
    (CALLSGX_DEFAULT_RETRIES = 5 ∧ CALLSGX_DEFAULT_RETRY_DELAY_MS = 100) ∧
    ((∀ r ∈ results, r = SgxStatus.SGX_ERROR_DEVICE_BUSY) →
      CALLSGX_DEFAULT_RETRIES + 1 ≤ results.length →
      Enclave.CallSgx results CALLSGX_DEFAULT_RETRIES =
        { result := some SgxStatus.SGX_ERROR_DEVICE_BUSY,
          invocations := CALLSGX_DEFAULT_RETRIES + 1, reloads := 0,
          sleeps := CALLSGX_DEFAULT_RETRIES + 1 }) ∧
    (Enclave.CallSgx (SgxStatus.SGX_ERROR_ENCLAVE_LOST :: results) retries =
      { result := (Enclave.CallSgx results retries).result,
        invocations := (Enclave.CallSgx results retries).invocations + 1,
        reloads := (Enclave.CallSgx results retries).reloads + 1,
        sleeps := (Enclave.CallSgx results retries).sleeps }) ∧
    (retries + lostCount results < results.length →
      (Enclave.CallSgx results retries).result.isSome = true) := by
  refine ⟨⟨rfl, rfl⟩, ?_, rfl, ?_⟩
  · intro hall hlen
    have h := callSgxLoop_all_busy CALLSGX_DEFAULT_RETRIES results 0 hall
      (by omega) (by omega)
    simpa [Enclave.CallSgx] using h
  · intro hlen
    exact callSgxLoop_isSome retries results 0 (by omega)

/-- Witness for the amended C8: six all-busy results exhaust the default
budget with six invocations and six sleeps, and one lost result followed
by success surfaces after one reload. -/
theorem c8_bounded_retry_amended_witness :
    Enclave.CallSgx (List.replicate 6 SgxStatus.SGX_ERROR_DEVICE_BUSY)
        CALLSGX_DEFAULT_RETRIES =
      { result := some SgxStatus.SGX_ERROR_DEVICE_BUSY, invocations := 6,
        reloads := 0, sleeps := 6 } ∧
    (Enclave.CallSgx [SgxStatus.SGX_ERROR_ENCLAVE_LOST, SgxStatus.SGX_SUCCESS]
        0).result.isSome = true :=
  ⟨(c8_bounded_retry_amended
      (List.replicate 6 SgxStatus.SGX_ERROR_DEVICE_BUSY) 0).2.1
      (fun r hr => by simpa using (List.eq_of_mem_replicate hr))
      (by decide),
    (c8_bounded_retry_amended
      [SgxStatus.SGX_ERROR_ENCLAVE_LOST, SgxStatus.SGX_SUCCESS] 0).2.2.2
      (by simp [lostCount])⟩

/-- C9 counterexample.  The simulator backend's `create_wait_certificate`
reports a failed timer-signature check by returning `NULL` (modelled as
`none`), not by raising a typed error: for timer `T9`, whose signature
was produced with the wrong key, the signature check fails and the call
returns the null sentinel. -/
theorem c9_no_sentinel_counterexample :
    sgxEcdsaVerify (simSerializeWaitTimer T9) WaitTimerPublicKey T9.signature =
      false ∧
    create_wait_certificate T9 100 = none := by
  constructor
  · decide
  · rfl

/-- C9 (amended).  The simulator backend's `create_wait_certificate`
reports its two failure cases — failed timer-signature check, and
non-genesis unexpired timer — by returning the null pointer (`none`),
not a typed error: the call returns `none` exactly on those inputs. -/
theorem c9_no_sentinel_amended (timer : SimWaitTimer) (now : ℚ) :
    create_wait_certificate timer now = none ↔
      (sgxEcdsaVerify (simSerializeWaitTimer timer) WaitTimerPublicKey
          timer.signature = false ∨
        (timer.previous_certificate_id ≠ NULL_IDENTIFIER ∧
          timer.is_expired now = false)) := by
  unfold create_wait_certificate
  split_ifs with h1 h2
  · simp [h1]
  · simp [h1, h2]
  · simp [h1, h2]

/-- C10.  The enclave entry point performs no validation of its local
mean: called directly with `localMean < 0` and a keyed value strictly
between 0 and 1, `ecall_CreateWaitTimerReal` still succeeds, producing
and signing a timer whose duration is the formula value
`1 - localMean * log u`, which is strictly below `MINIMUM_WAIT_TIME`,
while the counter still advances. -/
theorem c10_enclave_no_localmean_validation
    (s : EnclaveState) (signup : ValidatorSignupData) (addr prev : String)
    (reqTime localMean sgxNow hashAsDouble : ℝ)
    (hm : localMean < 0) (h0 : 0 < hashAsDouble) (h1 : hashAsDouble < 1) :
    (ecall_CreateWaitTimerReal s signup addr prev reqTime localMean sgxNow
        hashAsDouble).1.Duration = GenerateWaitTimerDuration hashAsDouble localMean ∧
    (ecall_CreateWaitTimerReal s signup addr prev reqTime localMean sgxNow
        hashAsDouble).1.Duration < ((MINIMUM_WAIT_TIME : ℚ) : ℝ) ∧
    (ecall_CreateWaitTimerReal s signup addr prev reqTime localMean sgxNow
        hashAsDouble).2.1 = sgxEcdsaSign signup.privateKey
      (ecall_CreateWaitTimerReal s signup addr prev reqTime localMean sgxNow
        hashAsDouble).1 ∧
    (ecall_CreateWaitTimerReal s signup addr prev reqTime localMean sgxNow
        hashAsDouble).2.2.counter = s.counter + 1 := by
  refine ⟨rfl, ?_, rfl, rfl⟩
  have hlog : Real.log hashAsDouble < 0 := Real.log_neg h0 h1
  have hpos : 0 < localMean * Real.log hashAsDouble :=
    mul_pos_of_neg_of_neg hm hlog
  simp only [ecall_CreateWaitTimerReal, GenerateWaitTimerDuration]
  linarith

/-- Witness for C10 at `localMean = -1` and keyed value `1/2`. -/
theorem c10_enclave_no_localmean_validation_witness :
    (ecall_CreateWaitTimerReal { counter := 0 }
        { privateKey := 2, publicKey := 2 } ("a") ("b") 0 (-1) 0
        (1 / 2)).1.Duration < ((MINIMUM_WAIT_TIME : ℚ) : ℝ) :=
  (c10_enclave_no_localmean_validation { counter := 0 }
    { privateKey := 2, publicKey := 2 } ("a") ("b") 0 (-1) 0 (1 / 2)
    (by norm_num) (by norm_num) (by norm_num)).2.1
